import Mathlib

/-!
Verification of the automated-biomechanics-report scripts.

The repository's reusable core is the range classifier `get_range_color` in
`cltest_report.py`, together with the report-page assembly in
`MocapReportGenerator`.  Python floats are modelled as rationals (`ℚ`); the
colour objects returned by the classifier are modelled by their hex strings,
mirroring the `COLORS` dictionary; Python dictionaries whose values are
numbers are modelled as functions `String → Option ℚ`.
-/

namespace BioReport

/-- The `COLORS` dictionary of `cltest_report.py` (lines 30-41), mapping a
colour name to the hex code it is constructed from (`white`/`black` are the
reportlab constants for `#FFFFFF`/`#000000`).  Keys outside the dictionary
are mapped to `""`; the source never looks one up. -/
def COLORS : String → String
  | "navy" => "#002855"
  | "gold" => "#EAAA00"
  | "light_gold" => "#F5D78E"
  | "white" => "#FFFFFF"
  | "black" => "#000000"
  | "green" => "#90EE90"
  | "yellow" => "#FFFACD"
  | "red" => "#FFB6C1"
  | "gray" => "#F5F5F5"
  | "dark_gray" => "#333333"
  | _ => ""

/-- `get_range_color(value, ref_range, std=None)` from `cltest_report.py`
lines 85-109.  Absent range gives gray; `low <= value <= high` gives green;
otherwise, when a std is supplied, the distance outside the range is compared
against it (yellow within one std, red beyond); with no std, red. -/
def get_range_color (value : ℚ) (ref_range : Option (ℚ × ℚ))
    (std : Option ℚ) : String :=
  match ref_range with
  | none => COLORS "gray"
  | some (low, high) =>
    if low ≤ value ∧ value ≤ high then COLORS "green"
    else
      match std with
      | some s =>
        let distance : ℚ := if value < low then low - value else value - high
        if distance ≤ s then COLORS "yellow" else COLORS "red"
      | none => COLORS "red"

/-- The body of `get_range_color`, abstracted over the `COLORS` table it
reads, and threading that table through as explicit state: the pair returned
is (result, table after the call).  The function only reads the table, so the
second component is always the table it was given. -/
def get_range_color_state (colors : String → String) (value : ℚ)
    (ref_range : Option (ℚ × ℚ)) (std : Option ℚ) :
    String × (String → String) :=
  match ref_range with
  | none => (colors "gray", colors)
  | some (low, high) =>
    if low ≤ value ∧ value ≤ high then (colors "green", colors)
    else
      match std with
      | some s =>
        let distance : ℚ := if value < low then low - value else value - high
        if distance ≤ s then (colors "yellow", colors)
        else (colors "red", colors)
      | none => (colors "red", colors)

/-- The scalar-valued (tuple) entries of the `REFERENCE_RANGES` dictionary of
`cltest_report.py` (lines 48-84): the stress and angular-velocity ranges.
(The remaining entries of the dictionary are nested per-phase dictionaries and
are never looked up through these keys.)  `Dict.get(key)` on a missing key is
`none`; in particular there is no entry named `knee_angular_velocity`. -/
def REFERENCE_RANGES_scalar : String → Option (ℚ × ℚ)
  | "shoulder_force_bw" => some (176, 224)
  | "shoulder_internal_rotation_torque_bwh" => some (17, 29)
  | "elbow_torque_bwh" => some (13, 17)
  | "pelvis_angular_velocity" => some (581, 811)
  | "trunk_angular_velocity" => some (861, 1187)
  | "elbow_angular_velocity" => some (2030, 2542)
  | "shoulder_angular_velocity" => some (3801, 4923)
  | _ => none

/-- Python `d.get(key, 'N/A')` interpolated into an f-string: the value when
present, the text `N/A` otherwise. -/
def dictGetDisplay (d : String → Option ℚ) (key : String) : String :=
  match d key with
  | some v => toString v
  | none => "N/A"

/-- A rendered summary table: its data rows (label, display text) and the
background styles the builder appends, as (row index, colour) pairs. -/
structure CellTable where
  rows : List (String × String)
  bg : List (ℕ × String)
deriving DecidableEq, Repr

/-- The `ref_keys` list of `_create_angular_velocity_table`. -/
def ang_ref_keys : List String := ["knee", "pelvis", "trunk", "elbow", "shoulder"]

/-- `MocapReportGenerator._create_angular_velocity_table` (lines 396-432).
The `data` rows interpolate `velocities.get(key, 'N/A')`; the colouring loop
takes `val = velocities.get(key, 0)` and `ref = REFERENCE_RANGES.get(key +
"_angular_velocity")`, appending a background style only `if ref`. -/
def create_angular_velocity_table (velocities : String → Option ℚ) : CellTable where
  rows :=
    [("Angular Velocities", ""),
     ("Knee", dictGetDisplay velocities "knee" ++ "°/s"),
     ("Pelvis", dictGetDisplay velocities "pelvis" ++ "°/s"),
     ("Trunk", dictGetDisplay velocities "trunk" ++ "°/s"),
     ("Elbow", dictGetDisplay velocities "elbow" ++ "°/s"),
     ("Shoulder", dictGetDisplay velocities "shoulder" ++ "°/s")]
  bg :=
    (ang_ref_keys.enum).foldl (fun styles p =>
      let val := (velocities p.2).getD 0
      match REFERENCE_RANGES_scalar (p.2 ++ "_angular_velocity") with
      | some ref => styles ++ [(p.1 + 1, get_range_color val (some ref) none)]
      | none => styles) []

/-- The `stress_refs` list of `_create_stress_table`: key together with the
`REFERENCE_RANGES.get(...)` lookup paired with it in the source. -/
def stress_refs : List (String × Option (ℚ × ℚ)) :=
  [("shoulder_force", REFERENCE_RANGES_scalar "shoulder_force_bw"),
   ("shoulder_torque", REFERENCE_RANGES_scalar "shoulder_internal_rotation_torque_bwh"),
   ("elbow_torque", REFERENCE_RANGES_scalar "elbow_torque_bwh")]

/-- `MocapReportGenerator._create_stress_table` (lines 434-472): rows
interpolate `stress.get(key, 'N/A')`; the colouring loop takes
`val = stress.get(key, 0)` and appends a background style only `if ref`. -/
def create_stress_table (stress : String → Option ℚ) : CellTable where
  rows :=
    [("Stress", ""),
     ("Shoulder Force", dictGetDisplay stress "shoulder_force" ++ "%BW"),
     ("Shoulder Torque", dictGetDisplay stress "shoulder_torque" ++ "%BWH"),
     ("Elbow Torque", dictGetDisplay stress "elbow_torque" ++ "%BWH")]
  bg :=
    (stress_refs.enum).foldl (fun styles p =>
      let val := (stress p.2.1).getD 0
      match p.2.2 with
      | some ref => styles ++ [(p.1 + 1, get_range_color val (some ref) none)]
      | none => styles) []

/-- The slice of `self.metrics` the summary-page tables read: the dictionaries
stored under the keys `angular_velocities` and `stress` (each itself a dict
from metric name to number, modelled as `String → Option ℚ`). -/
structure Metrics where
  angular_velocities : String → Option ℚ
  stress : String → Option ℚ

/-- The literal dictionary assigned to `self.metrics['angular_velocities']`
inside `generate_summary_page` (lines 556-562). -/
def summary_angular_velocities : String → Option ℚ := fun k =>
  if k = "knee" then some (-338)
  else if k = "pelvis" then some 594
  else if k = "trunk" then some 1060
  else if k = "elbow" then some 2209
  else if k = "shoulder" then some 4277
  else none

/-- The literal dictionary assigned to `self.metrics['stress']` inside
`generate_summary_page` (lines 565-569). -/
def summary_stress : String → Option ℚ := fun k =>
  if k = "shoulder_force" then some 129
  else if k = "shoulder_torque" then some 7
  else if k = "elbow_torque" then some 6
  else none

/-- The outcome of `generate_summary_page` that depends on `self.metrics`:
the mutated metrics dict and the two summary tables.  (The Key Metrics table
of the summary page is built entirely from literals and reads nothing from
`self.metrics`.) -/
structure SummaryPage where
  metrics_out : Metrics
  angular_table : CellTable
  stress_table : CellTable

/-- `MocapReportGenerator.generate_summary_page` (lines 494-587), restricted
to its use of `self.metrics`: it first overwrites
`self.metrics['angular_velocities']` and `self.metrics['stress']` with
literal dictionaries, then builds the angular-velocity and stress tables from
the overwritten entries. -/
def generate_summary_page (m : Metrics) : SummaryPage :=
  let m1 : Metrics := { m with angular_velocities := summary_angular_velocities }
  let m2 : Metrics := { m1 with stress := summary_stress }
  { metrics_out := m2
    angular_table := create_angular_velocity_table m2.angular_velocities
    stress_table := create_stress_table m2.stress }

/-- The nine report pages, one per `generate_*_page` method. -/
inductive PageId
  | summary
  | shoulder
  | elbowArmSlot
  | stress
  | trunk
  | pelvis
  | hipShoulderSeparation
  | kinematicSequence
  | reportInfo
deriving DecidableEq, Repr

/-- An entry of the `elements` list built by `generate_report`: the block of
elements returned by one page generator, or a `PageBreak()`. -/
inductive ReportElem
  | page (p : PageId)
  | pageBreak
deriving DecidableEq, Repr

/-- The constructor state of `MocapReportGenerator` (lines 243-255): the
fields set in `__init__` together with the metrics stored by `set_metrics`. -/
structure MocapReportGenerator where
  player_name : String
  date : String
  velocity_range : String
  output_path : String
  metrics : Metrics

/-- The `elements` list assembled by `MocapReportGenerator.generate_report`
(lines 1471-1523): each `elements.extend(self.generate_X_page())` contributes
a `page` entry and each `elements.append(PageBreak())` a `pageBreak`, in the
source's textual order.  Nothing is appended or skipped conditionally. -/
def generate_report_elements (_g : MocapReportGenerator) : List ReportElem :=
  [] ++ [ReportElem.page PageId.summary] ++ [ReportElem.pageBreak]
    ++ [ReportElem.page PageId.shoulder] ++ [ReportElem.pageBreak]
    ++ [ReportElem.page PageId.elbowArmSlot] ++ [ReportElem.pageBreak]
    ++ [ReportElem.page PageId.stress] ++ [ReportElem.pageBreak]
    ++ [ReportElem.page PageId.trunk] ++ [ReportElem.pageBreak]
    ++ [ReportElem.page PageId.pelvis] ++ [ReportElem.pageBreak]
    ++ [ReportElem.page PageId.hipShoulderSeparation] ++ [ReportElem.pageBreak]
    ++ [ReportElem.page PageId.kinematicSequence] ++ [ReportElem.pageBreak]
    ++ [ReportElem.page PageId.reportInfo]

/-- The fixed page order of the report, named by the spec. -/
def report_page_order : List PageId :=
  [PageId.summary, PageId.shoulder, PageId.elbowArmSlot, PageId.stress,
   PageId.trunk, PageId.pelvis, PageId.hipShoulderSeparation,
   PageId.kinematicSequence, PageId.reportInfo]

/-- `MocapReportGenerator.generate_report`: builds the elements list, writes
a document holding it to `self.output_path` via `doc.build(elements)` (the
file system is modelled as a map from path to document contents), and returns
`self.output_path`. -/
def generate_report (g : MocapReportGenerator)
    (fs : String → Option (List ReportElem)) :
    (String → Option (List ReportElem)) × String :=
  let elements := generate_report_elements g
  (fun p => if p = g.output_path then some elements else fs p, g.output_path)

/-- The dependency calls `generate_report` makes, each of which may raise
(`Except.error`): the nine page generators, in order, and `doc.build`.
`α` is the type of a page's element block, `ε` the type of errors. -/
structure ReportDeps (ε α : Type) where
  summary : Except ε α
  shoulder : Except ε α
  elbowArmSlot : Except ε α
  stress : Except ε α
  trunk : Except ε α
  pelvis : Except ε α
  hipShoulderSeparation : Except ε α
  kinematicSequence : Except ε α
  reportInfo : Except ε α
  build : List α → Except ε Unit

/-- The element-gathering phase of `generate_report` under the exception
model: the nine page generators run in order, and the first `raise` aborts
the whole sequence with that error (no script contains a `try`/`except`, so
nothing intercepts it). -/
def report_pages_exc {ε α : Type} (d : ReportDeps ε α) : Except ε (List α) :=
  match d.summary with
  | Except.error e => Except.error e
  | Except.ok a1 =>
    match d.shoulder with
    | Except.error e => Except.error e
    | Except.ok a2 =>
      match d.elbowArmSlot with
      | Except.error e => Except.error e
      | Except.ok a3 =>
        match d.stress with
        | Except.error e => Except.error e
        | Except.ok a4 =>
          match d.trunk with
          | Except.error e => Except.error e
          | Except.ok a5 =>
            match d.pelvis with
            | Except.error e => Except.error e
            | Except.ok a6 =>
              match d.hipShoulderSeparation with
              | Except.error e => Except.error e
              | Except.ok a7 =>
                match d.kinematicSequence with
                | Except.error e => Except.error e
                | Except.ok a8 =>
                  match d.reportInfo with
                  | Except.error e => Except.error e
                  | Except.ok a9 => Except.ok [a1, a2, a3, a4, a5, a6, a7, a8, a9]

/-- `generate_report` under the exception model, threading the file system:
on any dependency error the error is the result and the file system is
untouched (the only write happens inside a successful `doc.build`); on
success the document is written at `output_path` and that path returned. -/
def generate_report_exc {ε α : Type} (d : ReportDeps ε α)
    (fs : String → Option (List α)) (output_path : String) :
    (String → Option (List α)) × Except ε String :=
  match report_pages_exc d with
  | Except.error e => (fs, Except.error e)
  | Except.ok elems =>
    match d.build elems with
    | Except.error e => (fs, Except.error e)
    | Except.ok _ =>
      (fun p => if p = output_path then some elems else fs p, Except.ok output_path)

/-- The dictionary `{label: i for i, label in enumerate(labels)}` built in
`animate_skeleton_hitting` (`abcdefg.py` line 28), as a partial map from a
label to its index.  A duplicated label keeps its last index, exactly as the
comprehension's later assignments overwrite earlier ones. -/
def marker_dict : List String → String → Option ℕ
  | [], _ => none
  | l :: ls, s =>
    match marker_dict ls s with
    | some i => some (i + 1)
    | none => if s = l then some 0 else none

/-- The `skeleton_connections` list of `abcdefg.py` (lines 36-40). -/
def skeleton_connections : List (String × String) :=
  [("LFIN", "LELB"), ("LELB", "LSHO"), ("LSHO", "C7"), ("C7", "RSHO"),
   ("RSHO", "RELB"), ("RELB", "RFIN"), ("C7", "T10"), ("T10", "LIC"),
   ("LIC", "LKNEE"), ("LKNEE", "LANK"), ("T10", "RIC"), ("RIC", "RKNEE"),
   ("RKNEE", "RANK")]

/-- The `bat_connections` list of `abcdefg.py` (line 41). -/
def bat_connections : List (String × String) :=
  [("MARKER1", "MARKER2"), ("MARKER2", "MARKER3"), ("MARKER1", "MARKER3")]

/-- One connection's treatment inside `update` (`abcdefg.py` lines 67-79):
the line is touched only `if p1 in marker_dict and p2 in marker_dict`, in
which case the point array is indexed at `marker_dict[p1]` and
`marker_dict[p2]`; otherwise the connection is skipped and nothing is read.
The result records which marker indices the update reads, `none` when the
connection is skipped. -/
def update_segment (labels : List String) (conn : String × String) :
    Option (ℕ × ℕ) :=
  match marker_dict labels conn.1, marker_dict labels conn.2 with
  | some i, some j => some (i, j)
  | _, _ => none

/-- The all-`none` Python dictionary (`{}` under `.get`). -/
def empty_dict : String → Option ℚ := fun _ => none

/-- C1: for a value below an inclusive reference interval, `get_range_color`
with a supplied std answers NEAR_RANGE (yellow) exactly when the shortfall
`lo - v` is positive and at most `std`, and OUT_OF_RANGE (red) exactly when
it exceeds `std`; symmetrically above the interval with excess `v - hi`. -/
theorem get_range_color_near_out (v lo hi s : ℚ) (hr : lo ≤ hi) :
    (v < lo →
      ((get_range_color v (some (lo, hi)) (some s) = COLORS "yellow" ↔
          0 < lo - v ∧ lo - v ≤ s) ∧
        (get_range_color v (some (lo, hi)) (some s) = COLORS "red" ↔
          s < lo - v))) ∧
    (hi < v →
      ((get_range_color v (some (lo, hi)) (some s) = COLORS "yellow" ↔
          0 < v - hi ∧ v - hi ≤ s) ∧
        (get_range_color v (some (lo, hi)) (some s) = COLORS "red" ↔
          s < v - hi))) := by
  constructor
  · intro hlt
    have hnot : ¬(lo ≤ v ∧ v ≤ hi) := fun hc => absurd hc.1 (not_le.2 hlt)
    by_cases hle : lo - v ≤ s
    · simp only [get_range_color, if_neg hnot, if_pos hlt, if_pos hle]
      refine ⟨iff_of_true trivial ⟨by linarith, hle⟩, iff_of_false (by decide) (not_lt.2 hle)⟩
    · simp only [get_range_color, if_neg hnot, if_pos hlt, if_neg hle]
      refine ⟨iff_of_false (by decide) (fun hc => hle hc.2), iff_of_true trivial (not_le.1 hle)⟩
  · intro hgt
    have hnot : ¬(lo ≤ v ∧ v ≤ hi) := fun hc => absurd hc.2 (not_le.2 hgt)
    have hnlt : ¬(v < lo) := not_lt.2 (le_trans hr (le_of_lt hgt))
    by_cases hle : v - hi ≤ s
    · simp only [get_range_color, if_neg hnot, if_neg hnlt, if_pos hle]
      refine ⟨iff_of_true trivial ⟨by linarith, hle⟩, iff_of_false (by decide) (not_lt.2 hle)⟩
    · simp only [get_range_color, if_neg hnot, if_neg hnlt, if_neg hle]
      refine ⟨iff_of_false (by decide) (fun hc => hle hc.2), iff_of_true trivial (not_le.1 hle)⟩

/-- C1 witness: `classify(129, (176, 224), std=50)` is NEAR_RANGE. -/
theorem get_range_color_near_out_spot :
    get_range_color 129 (some (176, 224)) (some 50) = COLORS "yellow" :=
  (((get_range_color_near_out 129 176 224 50 (by norm_num)).1 (by norm_num)).1).2
    ⟨by norm_num, by norm_num⟩

/-- C2: every value inside the inclusive interval, the endpoints included,
is classified IN_RANGE (green), whatever the optional std. -/
theorem get_range_color_in_range (v lo hi : ℚ) (std : Option ℚ) :
    (lo ≤ v → v ≤ hi → get_range_color v (some (lo, hi)) std = COLORS "green") ∧
    (lo ≤ hi →
      get_range_color lo (some (lo, hi)) std = COLORS "green" ∧
      get_range_color hi (some (lo, hi)) std = COLORS "green") := by
  constructor
  · intro h1 h2
    simp [get_range_color, h1, h2]
  · intro hr
    constructor
    · simp [get_range_color, le_refl, hr]
    · simp [get_range_color, le_refl, hr]

/-- C2 witness: `classify(200, (176, 224), std=50)` is IN_RANGE, and both
endpoints of `(176, 224)` are IN_RANGE. -/
theorem get_range_color_in_range_spot :
    get_range_color 200 (some (176, 224)) (some 50) = COLORS "green" ∧
    get_range_color 176 (some (176, 224)) none = COLORS "green" ∧
    get_range_color 224 (some (176, 224)) none = COLORS "green" :=
  ⟨(get_range_color_in_range 200 176 224 (some 50)).1 (by norm_num) (by norm_num),
   ((get_range_color_in_range 176 176 224 none).2 (by norm_num)).1,
   ((get_range_color_in_range 224 176 224 none).2 (by norm_num)).2⟩

/-- C3: with an absent reference range the classifier answers the neutral
gray bucket, never green, yellow or red, for any value and any std. -/
theorem get_range_color_absent_range (v : ℚ) (std : Option ℚ) :
    get_range_color v none std = COLORS "gray" ∧
    get_range_color v none std ≠ COLORS "green" ∧
    get_range_color v none std ≠ COLORS "yellow" ∧
    get_range_color v none std ≠ COLORS "red" := by
  refine ⟨rfl, ?_, ?_, ?_⟩ <;> · show COLORS "gray" ≠ _; decide

/-- C4: with `std <= 0`, and likewise with no std at all, every out-of-range
value is classified OUT_OF_RANGE (red): there is no NEAR_RANGE band. -/
theorem get_range_color_degenerate_std (v lo hi s : ℚ) :
    (s ≤ 0 → (v < lo ∨ hi < v) →
      get_range_color v (some (lo, hi)) (some s) = COLORS "red") ∧
    ((v < lo ∨ hi < v) →
      get_range_color v (some (lo, hi)) none = COLORS "red") := by
  have hnot : (v < lo ∨ hi < v) → ¬(lo ≤ v ∧ v ≤ hi) := by
    rintro (h | h) hc
    · exact absurd hc.1 (not_le.2 h)
    · exact absurd hc.2 (not_le.2 h)
  constructor
  · intro hs hout
    by_cases hvl : v < lo
    · have hd : ¬(lo - v ≤ s) := by intro hh; linarith
      simp [get_range_color, hnot hout, hvl, hd]
    · have hhi : hi < v := by
        rcases hout with h | h
        · exact absurd h hvl
        · exact h
      have hd : ¬(v - hi ≤ s) := by intro hh; linarith
      simp [get_range_color, hnot hout, hvl, hd]
  · intro hout
    simp [get_range_color, hnot hout]

/-- C4 witness: `classify(129, (176, 224), std=None)` is OUT_OF_RANGE, as is
`classify(129, (176, 224), std=0)`. -/
theorem get_range_color_degenerate_std_spot :
    get_range_color 129 (some (176, 224)) none = COLORS "red" ∧
    get_range_color 129 (some (176, 224)) (some 0) = COLORS "red" :=
  ⟨(get_range_color_degenerate_std 129 176 224 0).2 (Or.inl (by norm_num)),
   (get_range_color_degenerate_std 129 176 224 0).1 le_rfl (Or.inl (by norm_num))⟩

/-- C5: the classifier is deterministic and side-effect-free: the `COLORS`
table it reads comes back unchanged from every call, calls with identical
inputs yield identical outputs, and the stateful reading of the source agrees
with the pure function `get_range_color`. -/
theorem get_range_color_pure (colors : String → String) (v : ℚ)
    (r : Option (ℚ × ℚ)) (s : Option ℚ) :
    (get_range_color_state colors v r s).2 = colors ∧
    (get_range_color_state COLORS v r s).1 = get_range_color v r s ∧
    (∀ v2 r2 s2, v = v2 → r = r2 → s = s2 →
      get_range_color_state colors v r s = get_range_color_state colors v2 r2 s2) := by
  refine ⟨?_, ?_, ?_⟩
  · rcases r with _ | ⟨lo, hi⟩
    · rfl
    · rcases s with _ | s <;> simp only [get_range_color_state] <;> split_ifs <;> rfl
  · rcases r with _ | ⟨lo, hi⟩
    · rfl
    · rcases s with _ | s <;> simp only [get_range_color_state, get_range_color] <;>
        split_ifs <;> rfl
  · rintro v2 r2 s2 rfl rfl rfl
    rfl

/-- C5 witness: a repeated call at `(129, (176, 224), std=50)` returns the
same output and hands the `COLORS` table back unchanged. -/
theorem get_range_color_pure_spot :
    (get_range_color_state COLORS 129 (some (176, 224)) (some 50)).2 = COLORS ∧
    get_range_color_state COLORS 129 (some (176, 224)) (some 50) =
      get_range_color_state COLORS 129 (some (176, 224)) (some 50) :=
  ⟨(get_range_color_pure COLORS 129 (some (176, 224)) (some 50)).1,
   (get_range_color_pure COLORS 129 (some (176, 224)) (some 50)).2.2
     129 (some (176, 224)) (some 50) rfl rfl rfl⟩

/-- C6: for every metrics dict, `generate_report` assembles the pages in the
one fixed order Summary, Shoulder, Elbow/Arm Slot, Throwing Arm Stress,
Trunk, Pelvis, Hip-Shoulder Separation, Kinematic Sequence, Report
Information — no page is conditionally included, omitted or reordered based
on the data — writes one document to the caller-specified output path, and
returns that same path. -/
theorem generate_report_fixed_order (g : MocapReportGenerator)
    (fs : String → Option (List ReportElem)) :
    ((generate_report_elements g).filterMap
        (fun e => match e with
          | ReportElem.page p => some p
          | ReportElem.pageBreak => none) = report_page_order) ∧
    (∀ m : Metrics,
      generate_report_elements { g with metrics := m } = generate_report_elements g) ∧
    (generate_report g fs).2 = g.output_path ∧
    (generate_report g fs).1 g.output_path = some (generate_report_elements g) ∧
    (∀ p, p ≠ g.output_path → (generate_report g fs).1 p = fs p) := by
  refine ⟨rfl, fun m => rfl, rfl, ?_, ?_⟩
  · simp [generate_report]
  · intro p hp
    simp [generate_report, hp]

/-- C8: `generate_summary_page` overwrites `self.metrics['angular_velocities']`
and `self.metrics['stress']` with fixed literal dictionaries before building
the angular-velocity and stress tables, so the two tables — displayed values
and cell colours alike — are identical for any two caller-supplied metrics
dicts, and the overwritten entries are the literal ones. -/
theorem summary_tables_ignore_metrics (m1 m2 : Metrics) :
    (generate_summary_page m1).angular_table = (generate_summary_page m2).angular_table ∧
    (generate_summary_page m1).stress_table = (generate_summary_page m2).stress_table ∧
    (generate_summary_page m1).metrics_out.angular_velocities
      = summary_angular_velocities ∧
    (generate_summary_page m1).metrics_out.stress = summary_stress :=
  ⟨rfl, rfl, rfl, rfl⟩

/-- The background styles of the angular-velocity table, evaluated: the
colouring loop of the source classifies `velocities.get(key, 0)` (std absent)
for the four keys that have a `..._angular_velocity` entry in
`REFERENCE_RANGES`; the `knee` iteration appends nothing because
`REFERENCE_RANGES.get('knee_angular_velocity')` is `None`. -/
theorem create_angular_velocity_table_bg (velocities : String → Option ℚ) :
    (create_angular_velocity_table velocities).bg =
      [(2, get_range_color ((velocities "pelvis").getD 0) (some (581, 811)) none),
       (3, get_range_color ((velocities "trunk").getD 0) (some (861, 1187)) none),
       (4, get_range_color ((velocities "elbow").getD 0) (some (2030, 2542)) none),
       (5, get_range_color ((velocities "shoulder").getD 0) (some (3801, 4923)) none)] :=
  rfl

/-- The background styles of the stress table, evaluated: all three keys have
a reference range, and `stress.get(key, 0)` is classified with no std. -/
theorem create_stress_table_bg (stress : String → Option ℚ) :
    (create_stress_table stress).bg =
      [(1, get_range_color ((stress "shoulder_force").getD 0) (some (176, 224)) none),
       (2, get_range_color ((stress "shoulder_torque").getD 0) (some (17, 29)) none),
       (3, get_range_color ((stress "elbow_torque").getD 0) (some (13, 17)) none)] :=
  rfl

/-- C9 counterexample: with an empty `angular_velocities` dict the Knee cell
displays `N/A`, yet no background style is computed for its row (row 1): the
coloured rows are exactly 2-5.  The claim that every absent key's cell is
coloured by classifying 0 against the metric's reference range fails at the
key `knee`, which has no `knee_angular_velocity` entry in `REFERENCE_RANGES`. -/
theorem missing_knee_cell_uncolored :
    (create_angular_velocity_table empty_dict).rows.get? 1 = some ("Knee", "N/A°/s") ∧
    (create_angular_velocity_table empty_dict).bg.map Prod.fst = [2, 3, 4, 5] :=
  ⟨rfl, rfl⟩

/-- C9 (amended): for every key absent from the dict that has a scalar entry
in `REFERENCE_RANGES` (the pelvis, trunk, elbow and shoulder angular
velocities, and all three stress metrics), the table builders display `N/A`
for the cell but still compute its background colour by classifying the
default value 0 against that range — red for every one of them, as 0 lies
below each range and no std is passed; the knee cell, whose lookup key
`knee_angular_velocity` has no entry, is displayed `N/A` but gets no
background style at all. -/
theorem missing_value_colored_as_zero (velocities stress_d : String → Option ℚ) :
    (velocities "pelvis" = none →
      (create_angular_velocity_table velocities).rows.get? 2 = some ("Pelvis", "N/A°/s") ∧
      (2, get_range_color 0 (some (581, 811)) none)
        ∈ (create_angular_velocity_table velocities).bg) ∧
    (velocities "trunk" = none →
      (create_angular_velocity_table velocities).rows.get? 3 = some ("Trunk", "N/A°/s") ∧
      (3, get_range_color 0 (some (861, 1187)) none)
        ∈ (create_angular_velocity_table velocities).bg) ∧
    (velocities "elbow" = none →
      (create_angular_velocity_table velocities).rows.get? 4 = some ("Elbow", "N/A°/s") ∧
      (4, get_range_color 0 (some (2030, 2542)) none)
        ∈ (create_angular_velocity_table velocities).bg) ∧
    (velocities "shoulder" = none →
      (create_angular_velocity_table velocities).rows.get? 5 = some ("Shoulder", "N/A°/s") ∧
      (5, get_range_color 0 (some (3801, 4923)) none)
        ∈ (create_angular_velocity_table velocities).bg) ∧
    (stress_d "shoulder_force" = none →
      (create_stress_table stress_d).rows.get? 1 = some ("Shoulder Force", "N/A%BW") ∧
      (1, get_range_color 0 (some (176, 224)) none)
        ∈ (create_stress_table stress_d).bg) ∧
    (stress_d "shoulder_torque" = none →
      (create_stress_table stress_d).rows.get? 2 = some ("Shoulder Torque", "N/A%BWH") ∧
      (2, get_range_color 0 (some (17, 29)) none)
        ∈ (create_stress_table stress_d).bg) ∧
    (stress_d "elbow_torque" = none →
      (create_stress_table stress_d).rows.get? 3 = some ("Elbow Torque", "N/A%BWH") ∧
      (3, get_range_color 0 (some (13, 17)) none)
        ∈ (create_stress_table stress_d).bg) ∧
    (velocities "knee" = none →
      (create_angular_velocity_table velocities).rows.get? 1 = some ("Knee", "N/A°/s") ∧
      (create_angular_velocity_table velocities).bg.map Prod.fst = [2, 3, 4, 5]) ∧
    (get_range_color 0 (some (581, 811)) none = COLORS "red" ∧
      get_range_color 0 (some (861, 1187)) none = COLORS "red" ∧
      get_range_color 0 (some (2030, 2542)) none = COLORS "red" ∧
      get_range_color 0 (some (3801, 4923)) none = COLORS "red" ∧
      get_range_color 0 (some (176, 224)) none = COLORS "red" ∧
      get_range_color 0 (some (17, 29)) none = COLORS "red" ∧
      get_range_color 0 (some (13, 17)) none = COLORS "red") := by
  refine ⟨?_, ?_, ?_, ?_, ?_, ?_, ?_, ?_, by decide⟩ <;>
    · intro h
      refine ⟨?_, ?_⟩
      · simp [create_angular_velocity_table, create_stress_table, dictGetDisplay, h]
      · first
          | (rw [create_angular_velocity_table_bg]; simp [h])
          | (rw [create_stress_table_bg]; simp [h])

/-- C9 witness: with empty dicts the Pelvis cell shows `N/A` and is coloured
as the classification of 0 against (581, 811); the Shoulder Force cell shows
`N/A` and is coloured as the classification of 0 against (176, 224); the Knee
cell shows `N/A` and rows 2-5 are the only coloured ones. -/
theorem missing_value_colored_as_zero_spot :
    (create_angular_velocity_table empty_dict).rows.get? 2 = some ("Pelvis", "N/A°/s") ∧
    (2, get_range_color 0 (some (581, 811)) none)
      ∈ (create_angular_velocity_table empty_dict).bg ∧
    (create_stress_table empty_dict).rows.get? 1 = some ("Shoulder Force", "N/A%BW") ∧
    (1, get_range_color 0 (some (176, 224)) none)
      ∈ (create_stress_table empty_dict).bg ∧
    (create_angular_velocity_table empty_dict).bg.map Prod.fst = [2, 3, 4, 5] := by
  have T := missing_value_colored_as_zero empty_dict empty_dict
  exact ⟨(T.1 rfl).1, (T.1 rfl).2, (T.2.2.2.2.1 rfl).1, (T.2.2.2.2.1 rfl).2,
    (T.2.2.2.2.2.2.2.1 rfl).2⟩

/-- C7: no script catches an exception, so whichever dependency call of
`generate_report` is first to raise — any of the nine page generators, in
order, or `doc.build` — its error becomes the result unchanged: no retry, no
recovery, and the file system is left exactly as it was (no partial result
written). -/
theorem report_errors_propagate {ε α : Type} (d : ReportDeps ε α)
    (fs : String → Option (List α)) (path : String) (e : ε)
    (h : d.summary = Except.error e ∨
      (∃ a1, d.summary = Except.ok a1 ∧ d.shoulder = Except.error e) ∨
      (∃ a1 a2, d.summary = Except.ok a1 ∧ d.shoulder = Except.ok a2 ∧
        d.elbowArmSlot = Except.error e) ∨
      (∃ a1 a2 a3, d.summary = Except.ok a1 ∧ d.shoulder = Except.ok a2 ∧
        d.elbowArmSlot = Except.ok a3 ∧ d.stress = Except.error e) ∨
      (∃ a1 a2 a3 a4, d.summary = Except.ok a1 ∧ d.shoulder = Except.ok a2 ∧
        d.elbowArmSlot = Except.ok a3 ∧ d.stress = Except.ok a4 ∧
        d.trunk = Except.error e) ∨
      (∃ a1 a2 a3 a4 a5, d.summary = Except.ok a1 ∧ d.shoulder = Except.ok a2 ∧
        d.elbowArmSlot = Except.ok a3 ∧ d.stress = Except.ok a4 ∧
        d.trunk = Except.ok a5 ∧ d.pelvis = Except.error e) ∨
      (∃ a1 a2 a3 a4 a5 a6, d.summary = Except.ok a1 ∧ d.shoulder = Except.ok a2 ∧
        d.elbowArmSlot = Except.ok a3 ∧ d.stress = Except.ok a4 ∧
        d.trunk = Except.ok a5 ∧ d.pelvis = Except.ok a6 ∧
        d.hipShoulderSeparation = Except.error e) ∨
      (∃ a1 a2 a3 a4 a5 a6 a7, d.summary = Except.ok a1 ∧ d.shoulder = Except.ok a2 ∧
        d.elbowArmSlot = Except.ok a3 ∧ d.stress = Except.ok a4 ∧
        d.trunk = Except.ok a5 ∧ d.pelvis = Except.ok a6 ∧
        d.hipShoulderSeparation = Except.ok a7 ∧
        d.kinematicSequence = Except.error e) ∨
      (∃ a1 a2 a3 a4 a5 a6 a7 a8, d.summary = Except.ok a1 ∧ d.shoulder = Except.ok a2 ∧
        d.elbowArmSlot = Except.ok a3 ∧ d.stress = Except.ok a4 ∧
        d.trunk = Except.ok a5 ∧ d.pelvis = Except.ok a6 ∧
        d.hipShoulderSeparation = Except.ok a7 ∧
        d.kinematicSequence = Except.ok a8 ∧ d.reportInfo = Except.error e) ∨
      (∃ a1 a2 a3 a4 a5 a6 a7 a8 a9, d.summary = Except.ok a1 ∧ d.shoulder = Except.ok a2 ∧
        d.elbowArmSlot = Except.ok a3 ∧ d.stress = Except.ok a4 ∧
        d.trunk = Except.ok a5 ∧ d.pelvis = Except.ok a6 ∧
        d.hipShoulderSeparation = Except.ok a7 ∧
        d.kinematicSequence = Except.ok a8 ∧ d.reportInfo = Except.ok a9 ∧
        d.build [a1, a2, a3, a4, a5, a6, a7, a8, a9] = Except.error e)) :
    generate_report_exc d fs path = (fs, Except.error e) := by
  rcases h with h1
    | ⟨a1, h1, h2⟩
    | ⟨a1, a2, h1, h2, h3⟩
    | ⟨a1, a2, a3, h1, h2, h3, h4⟩
    | ⟨a1, a2, a3, a4, h1, h2, h3, h4, h5⟩
    | ⟨a1, a2, a3, a4, a5, h1, h2, h3, h4, h5, h6⟩
    | ⟨a1, a2, a3, a4, a5, a6, h1, h2, h3, h4, h5, h6, h7⟩
    | ⟨a1, a2, a3, a4, a5, a6, a7, h1, h2, h3, h4, h5, h6, h7, h8⟩
    | ⟨a1, a2, a3, a4, a5, a6, a7, a8, h1, h2, h3, h4, h5, h6, h7, h8, h9⟩
    | ⟨a1, a2, a3, a4, a5, a6, a7, a8, a9, h1, h2, h3, h4, h5, h6, h7, h8, h9, h10⟩ <;>
    simp_all [generate_report_exc, report_pages_exc]

/-- A concrete dependency assignment whose shoulder page generator raises. -/
def failing_deps : ReportDeps String ℕ where
  summary := Except.ok 1
  shoulder := Except.error "boom"
  elbowArmSlot := Except.ok 3
  stress := Except.ok 4
  trunk := Except.ok 5
  pelvis := Except.ok 6
  hipShoulderSeparation := Except.ok 7
  kinematicSequence := Except.ok 8
  reportInfo := Except.ok 9
  build := fun _ => Except.ok ()

/-- C7 witness: with a shoulder-page failure the whole report generation
fails with that very error and writes nothing. -/
theorem report_errors_propagate_spot :
    generate_report_exc failing_deps (fun _ => none) "report.pdf"
      = (fun _ => none, Except.error "boom") :=
  report_errors_propagate failing_deps (fun _ => none) "report.pdf" "boom"
    (Or.inr (Or.inl ⟨1, rfl, rfl⟩))

/-- An index produced by the marker dictionary is a valid position in the
label list and names exactly the looked-up label. -/
theorem marker_dict_sound {labels : List String} {s : String} {i : ℕ}
    (h : marker_dict labels s = some i) :
    i < labels.length ∧ labels.get? i = some s := by
  induction labels generalizing i with
  | nil => exact absurd h (by simp [marker_dict])
  | cons l ls ih =>
    rw [marker_dict] at h
    cases hm : marker_dict ls s with
    | some j =>
      rw [hm] at h
      injection h with h
      subst h
      exact ⟨Nat.succ_lt_succ (ih hm).1, (ih hm).2⟩
    | none =>
      rw [hm] at h
      by_cases hsl : s = l
      · rw [if_pos hsl] at h
        injection h with h
        subst h
        exact ⟨Nat.succ_pos _, by simp [hsl]⟩
      · rw [if_neg hsl] at h
        exact absurd h (by simp)

/-- The marker dictionary holds a label exactly when the label list does. -/
theorem marker_dict_mem_iff (labels : List String) (s : String) :
    (marker_dict labels s).isSome = true ↔ s ∈ labels := by
  induction labels with
  | nil => simp [marker_dict]
  | cons l ls ih =>
    rw [marker_dict]
    cases hm : marker_dict ls s with
    | some j =>
      rw [hm] at ih
      simp at ih
      simp [List.mem_cons, ih]
    | none =>
      rw [hm] at ih
      simp at ih
      by_cases hsl : s = l
      · simp [if_pos hsl, List.mem_cons, hsl]
      · simp [if_neg hsl, List.mem_cons, hsl, ih]

/-- C10: inside `update`, a skeleton or bat connection is touched only when
both endpoint labels occur in the C3D label list: a connection with a missing
label is silently skipped, and a processed connection reads the points array
only at indices that are valid marker columns (and that name exactly the two
endpoint labels), so no out-of-bounds or missing-key lookup occurs. -/
theorem update_segment_safe (labels : List String) (conn : String × String)
    (_hconn : conn ∈ skeleton_connections ++ bat_connections) :
    ((update_segment labels conn).isSome = true ↔
      conn.1 ∈ labels ∧ conn.2 ∈ labels) ∧
    ((conn.1 ∉ labels ∨ conn.2 ∉ labels) → update_segment labels conn = none) ∧
    (∀ i j, update_segment labels conn = some (i, j) →
      i < labels.length ∧ j < labels.length ∧
      labels.get? i = some conn.1 ∧ labels.get? j = some conn.2) := by
  have hiff : (update_segment labels conn).isSome = true ↔
      conn.1 ∈ labels ∧ conn.2 ∈ labels := by
    rw [update_segment]
    cases h1 : marker_dict labels conn.1 with
    | none =>
      have : ¬(conn.1 ∈ labels) := by
        rw [← marker_dict_mem_iff, h1]
        simp
      simp [this]
    | some i =>
      have hm1 : conn.1 ∈ labels := by
        rw [← marker_dict_mem_iff, h1]
        rfl
      cases h2 : marker_dict labels conn.2 with
      | none =>
        have : ¬(conn.2 ∈ labels) := by
          rw [← marker_dict_mem_iff, h2]
          simp
        simp [this, hm1]
      | some j =>
        have hm2 : conn.2 ∈ labels := by
          rw [← marker_dict_mem_iff, h2]
          rfl
        simp [hm1, hm2]
  refine ⟨hiff, ?_, ?_⟩
  · intro hmiss
    cases hs : update_segment labels conn with
    | none => rfl
    | some p =>
      have : conn.1 ∈ labels ∧ conn.2 ∈ labels := by
        rw [← hiff, hs]
        rfl
      rcases hmiss with hm | hm
      · exact absurd this.1 hm
      · exact absurd this.2 hm
  · intro i j hs
    rw [update_segment] at hs
    cases h1 : marker_dict labels conn.1 with
    | none => rw [h1] at hs; exact absurd hs (by simp)
    | some i0 =>
      cases h2 : marker_dict labels conn.2 with
      | none => rw [h1, h2] at hs; exact absurd hs (by simp)
      | some j0 =>
        rw [h1, h2] at hs
        injection hs with hs
        cases hs
        exact ⟨(marker_dict_sound h1).1, (marker_dict_sound h2).1,
          (marker_dict_sound h1).2, (marker_dict_sound h2).2⟩

/-- C10 witness: for the first skeleton connection and a file whose labels
are exactly its two endpoints, the segment is updated and reads markers 0 and
1; dropping one label makes the connection silently skipped. -/
theorem update_segment_safe_spot :
    (update_segment ["LFIN", "LELB"] ("LFIN", "LELB")).isSome = true ∧
    update_segment ["LFIN"] ("LFIN", "LELB") = none := by
  constructor
  · exact (update_segment_safe ["LFIN", "LELB"] ("LFIN", "LELB")
      (by decide)).1.2 ⟨by decide, by decide⟩
  · exact (update_segment_safe ["LFIN"] ("LFIN", "LELB")
      (by decide)).2.1 (Or.inr (by decide))

end BioReport
